import Mathlib

/-!
# Verification of the UK Tax Estimator calculation engine

Shallow embedding of the calculation engine of the `estimator_table_2`
repository (`src/calculationLogic.ts`, in its two snapshots present in the
repository: the days-based snapshot and the PAYE-period snapshot) together
with proofs and refutations of the specification claims.

Modelling conventions:
* JavaScript numbers are modelled as exact rationals (`ℚ`).  Where a claim
  is specifically about the IEEE special values (`NaN`, `Infinity`) the type
  `JSNum` adds those values explicitly and the arithmetic used on the
  relevant code path is modelled on `JSNum`.
* `Math.round` rounds half-way cases towards positive infinity, which is
  `⌊x + 1/2⌋`.
* A JavaScript `Date` is modelled by its civil (year, 0-indexed month, day)
  triple; `getTime`-based comparisons and differences are modelled through
  the epoch-day number of the triple.  All dates in the engine are plain
  midnight dates, so millisecond arithmetic is exact day arithmetic.
* The upper `limit` of a tax band is `Option ℚ`, `none` standing for the
  JavaScript `Infinity` used by the top band.
-/

/-- JavaScript number with its non-finite values. -/
inductive JSNum where
  | num (q : ℚ)
  | inf
  | ninf
  | nan
deriving DecidableEq, Repr

/-- JavaScript `isFinite`: only an ordinary number is finite. -/
def JSNum.isFinite : JSNum → Bool
  | .num _ => true
  | _ => false

/-- Model of JavaScript `Math.round`: half-way cases go towards `+∞`. -/
def jround (q : ℚ) : ℚ := ((⌊q + 1/2⌋ : ℤ) : ℚ)

/-- Model of `Math.round(x * 100) / 100`: round to 2 decimal places. -/
def jround2 (q : ℚ) : ℚ := jround (q * 100) / 100

/-- Model of `Math.round(x * 1000) / 1000`: round to 3 decimal places. -/
def jround3 (q : ℚ) : ℚ := jround (q * 1000) / 1000

/-- Source (`calculateTax`, helper `safeRound`): coerce a non-finite number
to `0`, otherwise round to 2 decimal places. -/
def safeRound : JSNum → ℚ
  | .num q => jround2 q
  | _ => 0

/-- A civil date triple modelling a (normalized) JavaScript `Date`;
`month` is 0-indexed as in JavaScript. -/
structure JSDate where
  year : ℤ
  month : ℤ
  day : ℤ
deriving DecidableEq, Repr

/-- Epoch day number of a civil triple (days since 1970-01-01), using the
standard Gregorian days-from-civil computation.  An out-of-range `month`
or `day` is interpreted exactly as JavaScript `new Date(y, m, d)`
normalizes it (months overflow into years, days offset from the 1st). -/
def epochDay (dt : JSDate) : ℤ :=
  let ym : ℤ := dt.year + dt.month.fdiv 12
  let m : ℤ := dt.month.emod 12 + 1
  let y : ℤ := if m ≤ 2 then ym - 1 else ym
  let era : ℤ := y.fdiv 400
  let yoe : ℤ := y - era * 400
  let mp : ℤ := (m + 9).emod 12
  let doy : ℤ := (153 * mp + 2).fdiv 5 + (dt.day - 1)
  let doe : ℤ := yoe * 365 + yoe.fdiv 4 - yoe.fdiv 100 + doy
  era * 146097 + doe - 719468

/-- Source (`daysBetween`): number of days between two dates, inclusive.
The source rounds the millisecond difference divided by a day; for the
midnight dates used by the engine that is the exact epoch-day difference. -/
def daysBetween (start finish : JSDate) : ℤ :=
  epochDay finish - epochDay start + 1

-- Constants for the 2025/26 tax year.

/-- Source constant `TAX_YEAR_START` (6 April 2025). -/
def TAX_YEAR_START : JSDate := ⟨2025, 3, 6⟩

/-- Source constant `TAX_YEAR_END` (5 April 2026). -/
def TAX_YEAR_END : JSDate := ⟨2026, 3, 5⟩

/-- Source constant `PERSONAL_ALLOWANCE`. -/
def PERSONAL_ALLOWANCE : ℚ := 12570

/-- Source constant `TAPER_THRESHOLD`. -/
def TAPER_THRESHOLD : ℚ := 100000

/-- Source constant `TAPER_LIMIT`. -/
def TAPER_LIMIT : ℚ := 125140

/-- Source `interface TaxBand`; `limit = none` models the `Infinity`
upper limit of the top band. -/
structure TaxBand where
  limit : Option ℚ
  rate : ℚ
  name : String
deriving DecidableEq, Repr

/-- Source constant `TAX_BANDS` (England, Wales, NI). -/
def TAX_BANDS : List TaxBand :=
  [⟨some 37700, 1/5, "Basic Rate"⟩,
   ⟨some 125140, 2/5, "Higher Rate"⟩,
   ⟨none, 9/20, "Additional Rate"⟩]

/-- Source constant `SCOTTISH_TAX_BANDS`. -/
def SCOTTISH_TAX_BANDS : List TaxBand :=
  [⟨some 2306, 19/100, "Starter Rate"⟩,
   ⟨some 13991, 1/5, "Basic Rate"⟩,
   ⟨some 31092, 21/100, "Intermediate Rate"⟩,
   ⟨some 62430, 21/50, "Higher Rate"⟩,
   ⟨some 125140, 9/20, "Advanced Rate"⟩,
   ⟨none, 12/25, "Top Rate"⟩]

/-- Ordering of band limits, `none` being `+∞`. -/
def limitLt (a b : Option ℚ) : Bool :=
  match a, b with
  | some x, some y => decide (x < y)
  | some _, none => true
  | none, _ => false

/-- A well-formed band table: limits strictly increasing, non-empty, and
ending in the unbounded band (spec section 4.4). -/
def WellFormedBands (bands : List TaxBand) : Prop :=
  List.Chain' (fun a b => limitLt a.limit b.limit = true) bands ∧
    bands.getLast?.map TaxBand.limit = some none

/-- Source `calculatePersonalAllowance`: personal allowance with taper. -/
def calculatePersonalAllowance (totalIncome : ℚ) : ℚ :=
  if totalIncome ≤ TAPER_THRESHOLD then PERSONAL_ALLOWANCE
  else if TAPER_LIMIT ≤ totalIncome then 0
  else max 0 (PERSONAL_ALLOWANCE - (totalIncome - TAPER_THRESHOLD) / 2)

/-- Loop body of `calculateTaxDue`, with the running `remainingIncome`,
`previousLimit` and `tax` accumulators threaded explicitly.  A band with
an infinite limit consumes all remaining income; after it the JavaScript
loop would set `previousLimit = Infinity`, making every later band width
`NaN` and therefore inert, which the recursion models by returning. -/
def dueLoop (bands : List TaxBand) (remainingIncome previousLimit tax : ℚ) : ℚ :=
  match bands with
  | [] => tax
  | b :: rest =>
    match b.limit with
    | none => if 0 < remainingIncome then tax + remainingIncome * b.rate else tax
    | some l =>
      let bandWidth := l - previousLimit
      let incomeInBand := min remainingIncome bandWidth
      let tax' := if 0 < incomeInBand then tax + incomeInBand * b.rate else tax
      let remaining' := if 0 < incomeInBand then remainingIncome - incomeInBand else remainingIncome
      if remaining' ≤ 0 then tax' else dueLoop rest remaining' l tax'

/-- Source `calculateTaxDue`: tax due on a taxable income from position 0. -/
def calculateTaxDue (taxableIncome : ℚ) (bands : List TaxBand) : ℚ :=
  if taxableIncome ≤ 0 then 0 else jround2 (dueLoop bands taxableIncome 0 0)

/-- Loop body of `calculateTaxForSlice`, threading `remaining`,
`currentPosition` and `tax`.  It reproduces the source exactly, including
the final `if (currentPosition >= bandEnd) currentPosition = bandEnd`
assignment, which also fires when the slice starts beyond the band. -/
def sliceLoop (bands : List TaxBand) (remaining currentPosition tax : ℚ) : ℚ :=
  match bands with
  | [] => tax
  | b :: rest =>
    if remaining ≤ 0 then tax
    else
      match b.limit with
      | none => sliceLoop rest 0 (currentPosition + remaining) (tax + remaining * b.rate)
      | some l =>
        let roomInBand := max 0 (l - currentPosition)
        let incomeInThisBand := min remaining roomInBand
        let tax' := if 0 < incomeInThisBand then tax + incomeInThisBand * b.rate else tax
        let remaining' := if 0 < incomeInThisBand then remaining - incomeInThisBand else remaining
        let pos' := if 0 < incomeInThisBand then currentPosition + incomeInThisBand else currentPosition
        let pos'' := if l ≤ pos' then l else pos'
        sliceLoop rest remaining' pos'' tax'

/-- Source `calculateTaxForSlice`: tax on an income slice starting at a
given taxable position. -/
def calculateTaxForSlice (incomeAmount startingPosition : ℚ) (bands : List TaxBand) : ℚ :=
  if incomeAmount ≤ 0 then 0 else jround2 (sliceLoop bands incomeAmount startingPosition 0)

/-- Source `calculateIncrementalTax`: incremental tax on additional
taxable income, by two full band-table evaluations. -/
def calculateIncrementalTax (existingTaxableIncome additionalIncome : ℚ)
    (bands : List TaxBand) : ℚ :=
  if additionalIncome ≤ 0 then 0
  else jround2 (calculateTaxDue (existingTaxableIncome + additionalIncome) bands -
    calculateTaxDue existingTaxableIncome bands)

/-- Source union type of `Deduction.category`. -/
inductive DeductionCategory where
  | job_expenses
  | professional_subs
  | fre
  | marriage_allowance
  | gift_aid
  | other
deriving DecidableEq, Repr

/-- Source `interface Deduction`. -/
structure Deduction where
  id : String
  description : String
  amount : ℚ
  category : DeductionCategory
deriving DecidableEq, Repr

/-- Source union type of `TaxAdjustment.type`. -/
inductive AdjustmentType where
  | underpayment
  | untaxed_interest
  | benefit_in_kind
  | state_benefits
  | other
deriving DecidableEq, Repr

/-- Source `interface TaxAdjustment`. -/
structure TaxAdjustment where
  id : String
  description : String
  amount : ℚ
  type : AdjustmentType
deriving DecidableEq, Repr

/-- Source `isAdjustmentTaxableIncome` (PAYE-period snapshot): the three
adjustment kinds that represent additional taxable income. -/
def isAdjustmentTaxableIncome : AdjustmentType → Bool
  | .untaxed_interest => true
  | .benefit_in_kind => true
  | .state_benefits => true
  | _ => false

/-- Source `interface IncomeSource`.  The date strings are modelled by the
dates they parse to.  The structure carries the union of the fields of the
two snapshots (`includeCurrentMonth` for the days-based one, `monthsPaid`
for the PAYE-period one); optional fields are `Option`s. -/
structure IncomeSource where
  id : String
  name : String
  incomeToDate : ℚ
  isRegular : Bool
  startDate : JSDate
  endDate : JSDate
  includeCurrentMonth : Option Bool
  monthsPaid : Option ℚ
  projectedIncome : Option ℚ
  taxPaid : Option ℚ
deriving DecidableEq, Repr

/-- Source `interface SourceTaxDetail`. -/
structure SourceTaxDetail where
  name : String
  income : ℚ
  paUsed : ℚ
  taxableIncome : ℚ
  taxDue : ℚ
  taxPaid : ℚ
  difference : ℚ
  notes : String
deriving DecidableEq, Repr

/-- Source `interface CalculationResult` (the display-only `breakdown`
string list is omitted from the model). -/
structure CalculationResult where
  totalIncome : ℚ
  personalAllowance : ℚ
  totalDeductions : ℚ
  taxableIncomeBeforeDeductions : ℚ
  taxableIncomeAfterDeductions : ℚ
  taxDueOnIncome : ℚ
  totalAdjustments : ℚ
  finalTaxDue : ℚ
  taxPaid : ℚ
  netPosition : ℚ
  sourceDetails : List SourceTaxDetail
  taxableIncome : ℚ
  taxDue : ℚ
deriving DecidableEq, Repr

/-- Loop of `allocateTaxSequentially`, threading the `paRemaining` and
`taxablePosition` state and returning the emitted details together with
the final state.  The source indexes `projectedIncomes[i]` in step with
`sources[i]`; its only caller supplies lists of equal length, and the
recursion stops early on a length mismatch. -/
def allocGo (taxBands : List TaxBand) :
    List IncomeSource → List ℚ → ℚ → ℚ → List SourceTaxDetail × ℚ × ℚ
  | [], _, paRemaining, taxablePosition => ([], paRemaining, taxablePosition)
  | _ :: _, [], paRemaining, taxablePosition => ([], paRemaining, taxablePosition)
  | source :: restSources, income :: restIncomes, paRemaining, taxablePosition =>
    let paForThisSource := min paRemaining income
    let taxableIncome := income - paForThisSource
    let taxDue := calculateTaxForSlice taxableIncome taxablePosition taxBands
    let taxPaid :=
      match source.taxPaid with
      | some t => t
      | none => if source.isRegular then taxDue else 0
    let notes :=
      match source.taxPaid with
      | some _ => if source.isRegular then "User override" else "Actual tax deducted"
      | none => if source.isRegular then "Balanced PAYE (ongoing)" else "No tax information provided"
    let difference := taxPaid - taxDue
    let detail : SourceTaxDetail :=
      ⟨source.name, jround2 income, jround2 paForThisSource, jround2 taxableIncome,
        jround2 taxDue, jround2 taxPaid, jround2 difference, notes⟩
    let rest := allocGo taxBands restSources restIncomes
      (paRemaining - paForThisSource) (taxablePosition + taxableIncome)
    (detail :: rest.1, rest.2)

/-- Source `allocateTaxSequentially`: allocate allowance and tax
sequentially through the ordered income sources, starting from
`paRemaining = totalPA` and `taxablePosition = 0`. -/
def allocateTaxSequentially (sources : List IncomeSource) (projectedIncomes : List ℚ)
    (totalPA : ℚ) (taxBands : List TaxBand) : List SourceTaxDetail :=
  (allocGo taxBands sources projectedIncomes totalPA 0).1

/-- Source `interface CalculateTaxOptions`; the ambient-clock default for
`today` is modelled by the caller always supplying the date. -/
structure CalculateTaxOptions where
  today : JSDate
  useScottishBands : Bool
deriving DecidableEq, Repr

/-- Band table selected by the options (`useScottishBands`). -/
def bandsOf (options : CalculateTaxOptions) : List TaxBand :=
  if options.useScottishBands then SCOTTISH_TAX_BANDS else TAX_BANDS

/-- Sum of the deduction amounts (`deductions.reduce((sum, d) => sum + d.amount, 0)`). -/
def totalDeductionsOf (deductions : List Deduction) : ℚ :=
  (deductions.map Deduction.amount).sum

-- JavaScript arithmetic on `JSNum`, for the code paths whose claims are
-- about non-finite values.  Finite arithmetic is exact; the special
-- values follow IEEE semantics (negative zero is identified with zero,
-- which is inconsequential for the operations used here).

/-- JavaScript division of a number by a (finite) number. -/
def JSNum.divQ : JSNum → ℚ → JSNum
  | .num a, b =>
    if b = 0 then (if 0 < a then .inf else if a < 0 then .ninf else .nan)
    else .num (a / b)
  | .inf, b => if b < 0 then .ninf else .inf
  | .ninf, b => if b < 0 then .inf else .ninf
  | .nan, _ => .nan

/-- JavaScript multiplication of a number by a (finite) number. -/
def JSNum.mulQ : JSNum → ℚ → JSNum
  | .num a, b => .num (a * b)
  | .inf, b => if 0 < b then .inf else if b < 0 then .ninf else .nan
  | .ninf, b => if 0 < b then .ninf else if b < 0 then .inf else .nan
  | .nan, _ => .nan

/-- JavaScript `Math.min`: `NaN` absorbs, otherwise the usual minimum. -/
def JSNum.minJ : JSNum → JSNum → JSNum
  | .nan, _ => .nan
  | _, .nan => .nan
  | .ninf, _ => .ninf
  | _, .ninf => .ninf
  | .inf, b => b
  | a, .inf => a
  | .num a, .num b => .num (min a b)

/-- JavaScript `x > 0`: false for `NaN`. -/
def JSNum.gtZero : JSNum → Bool
  | .num q => decide (0 < q)
  | .inf => true
  | _ => false

/-- JavaScript `Math.round(x * 100) / 100` on a possibly non-finite
number: rounding preserves the special values. -/
def JSNum.round2 : JSNum → JSNum
  | .num q => .num (jround2 q)
  | x => x

namespace DaysBased

/-!
The days-based snapshot (`src/calculationLogic.ts`): income projection by
days worked with the `includeCurrentMonth` toggle, and adjustments summed
directly into the final tax.
-/

/-- Source (`calculateProjectedIncome`): `new Date(today.getFullYear(),
today.getMonth(), 0)`, the last day of the previous month.  The triple is
only ever consumed through `epochDay`, which normalizes day `0`. -/
def lastDayOfPreviousMonth (today : JSDate) : JSDate :=
  ⟨today.year, today.month, 0⟩

/-- Initial as-of date of `calculateProjectedIncome`, before the
start-date override: `today` when the current month is included, else the
last day of the previous month. -/
def asOfInitial (includeCurrentMonth : Bool) (today : JSDate) : JSDate :=
  if includeCurrentMonth then today else lastDayOfPreviousMonth today

/-- Projection result record of the days-based `calculateProjectedIncome`. -/
structure ProjectionJS where
  projected : JSNum
  daysWorked : ℤ
  daysInYear : ℤ
deriving DecidableEq, Repr

/-- Main-path projected value of `calculateProjectedIncome` before the
final `isFinite` fallback (daily rate times days in year, conservatively
capped below seven days of data, rounded to 2 decimal places), on JS
numbers. -/
def rawProjection (incomeToDate : JSNum) (start asOf : JSDate) : JSNum :=
  let daysWorked : ℤ := max 1 (daysBetween start asOf)
  let daysInYear : ℤ := daysBetween start TAX_YEAR_END
  let dailyRate := incomeToDate.divQ (daysWorked : ℚ)
  let projected := dailyRate.mulQ (daysInYear : ℚ)
  let projected :=
    if daysWorked < 7 ∧ incomeToDate.gtZero = true then
      let weeksWorked : ℚ := (daysWorked : ℚ) / 7
      let weeklyRate := incomeToDate.divQ weeksWorked
      let weeksRemaining : ℚ := (daysInYear : ℚ) / 7
      let conservativeProjection := weeklyRate.mulQ weeksRemaining
      projected.minJ conservativeProjection
    else projected
  projected.round2

/-- Main path of `calculateProjectedIncome` (after the early-return
guard), including the non-finite fallback to `incomeToDate`. -/
def projectionMain (incomeToDate : JSNum) (start asOf : JSDate) : ProjectionJS :=
  let daysWorked : ℤ := max 1 (daysBetween start asOf)
  let daysInYear : ℤ := daysBetween start TAX_YEAR_END
  let p := rawProjection incomeToDate start asOf
  ⟨if p.isFinite then p else incomeToDate, daysWorked, daysInYear⟩

/-- Source `calculateProjectedIncome` (days-based snapshot), on JS
numbers: project annual income from income to date, start date and the
as-of date derived from `today` and `includeCurrentMonth`. -/
def calculateProjectedIncomeJS (incomeToDate : JSNum) (startDate : JSDate)
    (includeCurrentMonth : Bool) (today : JSDate) : ProjectionJS :=
  let start := startDate
  let asOf := asOfInitial includeCurrentMonth today
  if epochDay asOf < epochDay start then
    if epochDay today ≤ epochDay start then
      ⟨incomeToDate, 1, max 1 (daysBetween start TAX_YEAR_END)⟩
    else projectionMain incomeToDate start today
  else projectionMain incomeToDate start asOf

/-- Projection result record over exact rationals. -/
structure Projection where
  projected : ℚ
  daysWorked : ℤ
  daysInYear : ℤ
deriving DecidableEq, Repr

/-- Source `calculateProjectedIncome` (days-based snapshot) over exact
rationals, as consumed by `calculateTax`.  In the exact-rational model
the divisor `daysWorked` is at least 1, so the projection is always
finite and the source's non-finite fallback branch is unreachable. -/
def calculateProjectedIncome (incomeToDate : ℚ) (startDate : JSDate)
    (includeCurrentMonth : Bool) (today : JSDate) : Projection :=
  let start := startDate
  let asOf0 := asOfInitial includeCurrentMonth today
  let proj : JSDate → Projection := fun asOf =>
    let daysWorked : ℤ := max 1 (daysBetween start asOf)
    let daysInYear : ℤ := daysBetween start TAX_YEAR_END
    let dailyRate := incomeToDate / (daysWorked : ℚ)
    let projected := dailyRate * (daysInYear : ℚ)
    let projected :=
      if daysWorked < 7 ∧ 0 < incomeToDate then
        let weeksWorked : ℚ := (daysWorked : ℚ) / 7
        let weeklyRate := incomeToDate / weeksWorked
        let weeksRemaining : ℚ := (daysInYear : ℚ) / 7
        min projected (weeklyRate * weeksRemaining)
      else projected
    ⟨jround2 projected, daysWorked, daysInYear⟩
  if epochDay asOf0 < epochDay start then
    if epochDay today ≤ epochDay start then
      ⟨incomeToDate, 1, max 1 (daysBetween start TAX_YEAR_END)⟩
    else proj today
  else proj asOf0

/-- Step 1 of `calculateTax` for one source: the user override wins, a
regular source without one is projected, a one-off source contributes its
income to date verbatim. -/
def resolveSourceIncome (today : JSDate) (source : IncomeSource) : ℚ :=
  if source.isRegular then
    match source.projectedIncome with
    | some p => p
    | none =>
      (calculateProjectedIncome source.incomeToDate source.startDate
        (source.includeCurrentMonth.getD true) today).projected
  else source.incomeToDate

/-- Per-source projected/actual incomes gathered by step 1 of
`calculateTax` (`breakdown.sources.map(s => s.projectedOrActual)`). -/
def projectedIncomesOf (options : CalculateTaxOptions) (sources : List IncomeSource) : List ℚ :=
  sources.map (resolveSourceIncome options.today)

/-- Running total of step 1 of `calculateTax`. -/
def totalIncomeOf (options : CalculateTaxOptions) (sources : List IncomeSource) : ℚ :=
  (projectedIncomesOf options sources).sum

/-- Step 4 of `calculateTax`: `totalIncome - personalAllowance`. -/
def taxableBeforeDeductionsOf (options : CalculateTaxOptions)
    (sources : List IncomeSource) : ℚ :=
  totalIncomeOf options sources - calculatePersonalAllowance (totalIncomeOf options sources)

/-- Step 4 of `calculateTax`: taxable income after deductions, clamped at 0. -/
def taxableAfterDeductionsOf (options : CalculateTaxOptions)
    (sources : List IncomeSource) (deductions : List Deduction) : ℚ :=
  max 0 (taxableBeforeDeductionsOf options sources - totalDeductionsOf deductions)

/-- Source `calculateTax` (days-based snapshot).  The local accumulators
of the source are modelled by the named helper definitions above; every
numeric field of the result goes through `safeRound`. -/
def calculateTax (sources : List IncomeSource) (deductions : List Deduction)
    (adjustments : List TaxAdjustment) (options : CalculateTaxOptions) : CalculationResult :=
  let taxBands := bandsOf options
  let totalIncome := totalIncomeOf options sources
  let personalAllowance := calculatePersonalAllowance totalIncome
  let sourceDetails :=
    allocateTaxSequentially sources (projectedIncomesOf options sources) personalAllowance taxBands
  let totalDeductions := totalDeductionsOf deductions
  let taxableIncomeBeforeDeductions := taxableBeforeDeductionsOf options sources
  let taxableIncomeAfterDeductions := taxableAfterDeductionsOf options sources deductions
  let taxDueOnIncome := calculateTaxDue taxableIncomeAfterDeductions taxBands
  let totalAdjustments := (adjustments.map TaxAdjustment.amount).sum
  let finalTaxDue := taxDueOnIncome + totalAdjustments
  let taxPaid := (sourceDetails.map SourceTaxDetail.taxPaid).sum
  let netPosition := taxPaid - finalTaxDue
  { totalIncome := safeRound (.num totalIncome)
    personalAllowance := safeRound (.num personalAllowance)
    totalDeductions := safeRound (.num totalDeductions)
    taxableIncomeBeforeDeductions := safeRound (.num taxableIncomeBeforeDeductions)
    taxableIncomeAfterDeductions := safeRound (.num taxableIncomeAfterDeductions)
    taxDueOnIncome := safeRound (.num taxDueOnIncome)
    totalAdjustments := safeRound (.num totalAdjustments)
    finalTaxDue := safeRound (.num finalTaxDue)
    taxPaid := safeRound (.num taxPaid)
    netPosition := safeRound (.num netPosition)
    sourceDetails := sourceDetails
    taxableIncome := safeRound (.num taxableIncomeAfterDeductions)
    taxDue := safeRound (.num finalTaxDue) }

end DaysBased

namespace PayePeriods

/-!
The PAYE-period snapshot (`src/unnamed/part_000`, middle revision): income
projection by PAYE periods (6th to 5th) with an optional `monthsPaid`
count, and adjustments split into direct-tax and taxable-income kinds.
`parseDate` applied to an already-parsed `Date` returns a copy, so the
modelled date fields enter the period machinery unchanged.
-/

/-- Source `interface PAYEPeriod`. -/
structure PAYEPeriod where
  periodNumber : ℤ
  startDate : JSDate
  endDate : JSDate
  daysInPeriod : ℤ
deriving DecidableEq, Repr

/-- Source `getPAYEPeriod`: the PAYE period (6th to 5th of the next
month) containing a date, with its number 1 to 12 relative to the tax
year start. -/
def getPAYEPeriod (date : JSDate) (taxYearStart : JSDate) : PAYEPeriod :=
  let year := date.year
  let month := date.month
  let day := date.day
  let periodStartMonth : ℤ := if 6 ≤ day then month else if month = 0 then 11 else month - 1
  let periodStartYear : ℤ := if 6 ≤ day then year else if month = 0 then year - 1 else year
  let taxYearStartMonth := taxYearStart.month
  let taxYearStartYear := taxYearStart.year
  let periodNumber0 : ℤ :=
    if periodStartYear = taxYearStartYear then periodStartMonth - taxYearStartMonth + 1
    else periodStartMonth + 12 - taxYearStartMonth + 1
  let periodNumber := max 1 (min 12 periodNumber0)
  let startDate : JSDate := ⟨periodStartYear, periodStartMonth, 6⟩
  let endMonth : ℤ := if 11 < periodStartMonth + 1 then 0 else periodStartMonth + 1
  let endYear : ℤ := if 11 < periodStartMonth + 1 then periodStartYear + 1 else periodStartYear
  let endDate : JSDate := ⟨endYear, endMonth, 5⟩
  ⟨periodNumber, startDate, endDate, daysBetween startDate endDate⟩

/-- Result record of `calculateEquivalentPeriods`. -/
structure EquivalentPeriods where
  equivalentPeriods : ℚ
  firstPeriodFraction : ℚ
  fullPeriodsAfter : ℤ
  startPeriod : PAYEPeriod
deriving DecidableEq, Repr

/-- Source `calculateEquivalentPeriods`: equivalent PAYE periods worked
from a start date to an as-of date, the first (possibly partial) period
contributing its worked fraction. -/
def calculateEquivalentPeriods (startDate asOfDate taxYearStart : JSDate) : EquivalentPeriods :=
  let effectiveStart := if epochDay startDate < epochDay taxYearStart then taxYearStart else startDate
  let startPeriod := getPAYEPeriod effectiveStart taxYearStart
  let asOfPeriod := getPAYEPeriod asOfDate taxYearStart
  let startDay := effectiveStart.day
  let firstPeriodFraction : ℚ :=
    if startDay = 6 then 1
    else if 6 < startDay then
      ((daysBetween effectiveStart startPeriod.endDate : ℤ) : ℚ) / ((startPeriod.daysInPeriod : ℤ) : ℚ)
    else 1
  let fullPeriodsAfter : ℤ :=
    if startPeriod.periodNumber < asOfPeriod.periodNumber then
      asOfPeriod.periodNumber - startPeriod.periodNumber
    else 0
  ⟨firstPeriodFraction + (fullPeriodsAfter : ℚ), firstPeriodFraction, fullPeriodsAfter, startPeriod⟩

/-- Result record of `calculateTotalPeriods`. -/
structure TotalPeriods where
  totalPeriods : ℚ
  firstPeriodFraction : ℚ
  fullPeriodsAfter : ℤ
deriving DecidableEq, Repr

/-- Source `calculateTotalPeriods`: total PAYE periods in the employment
window, both ends clamped to the tax year. -/
def calculateTotalPeriods (startDate endDate taxYearStart : JSDate) : TotalPeriods :=
  let effectiveStart := if epochDay startDate < epochDay taxYearStart then taxYearStart else startDate
  let effectiveEnd := if epochDay TAX_YEAR_END < epochDay endDate then TAX_YEAR_END else endDate
  let startPeriod := getPAYEPeriod effectiveStart taxYearStart
  let firstPeriodFraction : ℚ :=
    ((daysBetween effectiveStart startPeriod.endDate : ℤ) : ℚ) / ((startPeriod.daysInPeriod : ℤ) : ℚ)
  let endPeriod := getPAYEPeriod effectiveEnd taxYearStart
  let fullPeriodsAfter : ℤ := endPeriod.periodNumber - startPeriod.periodNumber
  ⟨firstPeriodFraction + (fullPeriodsAfter : ℚ), firstPeriodFraction, fullPeriodsAfter⟩

/-- Source `interface PAYEProjectionResult`.  The legacy day counts are
produced by `Math.round` and are stored as the (integer-valued) rationals
the source computes. -/
structure PAYEProjectionResult where
  projected : ℚ
  periodsWorked : ℚ
  totalPeriods : ℚ
  monthlyRate : ℚ
  firstPeriodFraction : ℚ
  startPeriodNumber : ℤ
  daysWorked : ℚ
  daysInYear : ℚ
deriving DecidableEq, Repr

/-- Source `calculateProjectedIncome` (PAYE-period snapshot).  The local
`finish` closure models the tail of the function shared by the
explicit-`monthsPaid` branch and the auto-derived branch; in the
exact-rational model `periodsWorked` is positive on every path, so the
source's non-finite fallback branch is unreachable. -/
def calculateProjectedIncome (incomeToDate : ℚ) (startDate : JSDate)
    (monthsPaid : Option ℚ) (today : JSDate) (endDate : JSDate) : PAYEProjectionResult :=
  let rawStart := startDate
  let start := if epochDay rawStart < epochDay TAX_YEAR_START then TAX_YEAR_START else rawStart
  let startPeriod := getPAYEPeriod start TAX_YEAR_START
  let totalPeriodsResult := calculateTotalPeriods start endDate TAX_YEAR_START
  let totalPeriods := totalPeriodsResult.totalPeriods
  let finish : ℚ → ℚ → PAYEProjectionResult := fun periodsWorked firstPeriodFraction =>
    let monthlyRate := incomeToDate / periodsWorked
    let projected := jround2 (monthlyRate * totalPeriods)
    ⟨projected, jround3 periodsWorked, jround3 totalPeriods, jround2 monthlyRate,
      jround3 firstPeriodFraction, startPeriod.periodNumber,
      jround (periodsWorked * 30), jround (totalPeriods * 30)⟩
  let auto : Unit → PAYEProjectionResult := fun _ =>
    let asOfDate := today
    if epochDay asOfDate ≤ epochDay start then
      ⟨incomeToDate, 1/10, totalPeriods, incomeToDate, totalPeriodsResult.firstPeriodFraction,
        startPeriod.periodNumber, 1, jround (totalPeriods * 30)⟩
    else
      let periodsWorkedResult := calculateEquivalentPeriods start asOfDate TAX_YEAR_START
      finish (max (1/10) periodsWorkedResult.equivalentPeriods)
        periodsWorkedResult.firstPeriodFraction
  match monthsPaid with
  | some m => if 0 < m then finish m 1 else auto ()
  | none => auto ()

/-- Step 1 of `calculateTax` for one source (PAYE-period snapshot). -/
def resolveSourceIncome (today : JSDate) (source : IncomeSource) : ℚ :=
  if source.isRegular then
    match source.projectedIncome with
    | some p => p
    | none =>
      (calculateProjectedIncome source.incomeToDate source.startDate
        source.monthsPaid today source.endDate).projected
  else source.incomeToDate

/-- Per-source projected/actual incomes gathered by step 1 of
`calculateTax`. -/
def projectedIncomesOf (options : CalculateTaxOptions) (sources : List IncomeSource) : List ℚ :=
  sources.map (resolveSourceIncome options.today)

/-- Running total of step 1 of `calculateTax`. -/
def totalIncomeOf (options : CalculateTaxOptions) (sources : List IncomeSource) : ℚ :=
  (projectedIncomesOf options sources).sum

/-- Step 4 of `calculateTax`: `totalIncome - personalAllowance`. -/
def taxableBeforeDeductionsOf (options : CalculateTaxOptions)
    (sources : List IncomeSource) : ℚ :=
  totalIncomeOf options sources - calculatePersonalAllowance (totalIncomeOf options sources)

/-- Step 4 of `calculateTax`: taxable income after deductions, clamped at 0. -/
def taxableAfterDeductionsOf (options : CalculateTaxOptions)
    (sources : List IncomeSource) (deductions : List Deduction) : ℚ :=
  max 0 (taxableBeforeDeductionsOf options sources - totalDeductionsOf deductions)

/-- Accumulators of step 6 of `calculateTax` (PAYE-period snapshot). -/
structure AdjState where
  totalAdjustmentTax : ℚ
  totalAdditionalTaxableIncome : ℚ
  currentTaxableIncome : ℚ
deriving DecidableEq, Repr

/-- One iteration of the adjustment loop of step 6: a taxable-income kind
contributes its incremental tax and advances the current taxable
position, a direct-tax kind adds its amount to the running tax only. -/
def adjStep (taxBands : List TaxBand) (st : AdjState) (adjustment : TaxAdjustment) : AdjState :=
  if isAdjustmentTaxableIncome adjustment.type then
    { totalAdjustmentTax :=
        st.totalAdjustmentTax +
          calculateIncrementalTax st.currentTaxableIncome adjustment.amount taxBands
      totalAdditionalTaxableIncome := st.totalAdditionalTaxableIncome + adjustment.amount
      currentTaxableIncome := st.currentTaxableIncome + adjustment.amount }
  else
    { st with totalAdjustmentTax := st.totalAdjustmentTax + adjustment.amount }

/-- Final state of the adjustment loop of step 6, starting from the
taxable income after deductions. -/
def adjFinalOf (options : CalculateTaxOptions) (sources : List IncomeSource)
    (deductions : List Deduction) (adjustments : List TaxAdjustment) : AdjState :=
  adjustments.foldl (adjStep (bandsOf options))
    ⟨0, 0, taxableAfterDeductionsOf options sources deductions⟩

/-- Source `calculateTax` (PAYE-period snapshot).  Identical to the
days-based snapshot except for the projection used in step 1, the
kind-split adjustment loop of step 6, and the returned
`taxableIncomeAfterDeductions`, which includes the additional taxable
income accumulated by the adjustments. -/
def calculateTax (sources : List IncomeSource) (deductions : List Deduction)
    (adjustments : List TaxAdjustment) (options : CalculateTaxOptions) : CalculationResult :=
  let taxBands := bandsOf options
  let totalIncome := totalIncomeOf options sources
  let personalAllowance := calculatePersonalAllowance totalIncome
  let sourceDetails :=
    allocateTaxSequentially sources (projectedIncomesOf options sources) personalAllowance taxBands
  let totalDeductions := totalDeductionsOf deductions
  let taxableIncomeBeforeDeductions := taxableBeforeDeductionsOf options sources
  let taxableIncomeAfterDeductions := taxableAfterDeductionsOf options sources deductions
  let taxDueOnIncome := calculateTaxDue taxableIncomeAfterDeductions taxBands
  let adjFinal := adjFinalOf options sources deductions adjustments
  let finalTaxDue := taxDueOnIncome + adjFinal.totalAdjustmentTax
  let taxPaid := (sourceDetails.map SourceTaxDetail.taxPaid).sum
  let netPosition := taxPaid - finalTaxDue
  { totalIncome := safeRound (.num totalIncome)
    personalAllowance := safeRound (.num personalAllowance)
    totalDeductions := safeRound (.num totalDeductions)
    taxableIncomeBeforeDeductions := safeRound (.num taxableIncomeBeforeDeductions)
    taxableIncomeAfterDeductions := safeRound (.num adjFinal.currentTaxableIncome)
    taxDueOnIncome := safeRound (.num taxDueOnIncome)
    totalAdjustments := safeRound (.num adjFinal.totalAdjustmentTax)
    finalTaxDue := safeRound (.num finalTaxDue)
    taxPaid := safeRound (.num taxPaid)
    netPosition := safeRound (.num netPosition)
    sourceDetails := sourceDetails
    taxableIncome := safeRound (.num adjFinal.currentTaxableIncome)
    taxDue := safeRound (.num finalTaxDue) }

end PayePeriods

/-!
## Specification-side formulations

Independent definitions written from the words of the specification, to be
compared with the embedded source functions.
-/

/-- Spec section 4.5, the sequential-allocation fold as worded by the
claim: per source, allowance used is `min(allowanceRemaining, income)`,
taxable is the remainder, tax due is `taxOnSlice(taxable, bandPosition)`,
and the state advances by the allowance used and the taxable amount.
Records are `(allowance used, taxable, tax due)` triples. -/
def specSeqAlloc (taxBands : List TaxBand) :
    ℚ → ℚ → List ℚ → List (ℚ × ℚ × ℚ)
  | _, _, [] => []
  | allowanceRemaining, bandPosition, income :: rest =>
    let allowanceUsed := min allowanceRemaining income
    let taxable := income - allowanceUsed
    let taxDue := calculateTaxForSlice taxable bandPosition taxBands
    (allowanceUsed, taxable, taxDue) ::
      specSeqAlloc taxBands (allowanceRemaining - allowanceUsed) (bandPosition + taxable) rest

/-- Spec section 4.6, the adjustment contributions as worded by the
claim: processed in input order from a running position, a
taxable-income adjustment contributes `taxDue(position + amount) −
taxDue(position)` and advances the position by its amount, a direct-tax
adjustment contributes its amount with no income-side effect. -/
def specAdjustmentTaxes (taxBands : List TaxBand) :
    ℚ → List TaxAdjustment → List ℚ
  | _, [] => []
  | position, a :: rest =>
    if isAdjustmentTaxableIncome a.type then
      (calculateTaxDue (position + a.amount) taxBands - calculateTaxDue position taxBands) ::
        specAdjustmentTaxes taxBands (position + a.amount) rest
    else
      a.amount :: specAdjustmentTaxes taxBands position rest

/-- A rational is an exact 2-decimal-place amount. -/
def isTwoDP (q : ℚ) : Prop := ∃ n : ℤ, q = (n : ℚ) / 100

/-!
## Basic lemmas about the rounding helpers and the band engine
-/

theorem jround_intCast (n : ℤ) : jround ((n : ℚ)) = (n : ℚ) := by
  unfold jround
  norm_num [Int.floor_eq_iff]

theorem jround2_twoDP (q : ℚ) : isTwoDP (jround2 q) :=
  ⟨⌊q * 100 + 1/2⌋, rfl⟩

theorem jround2_of_twoDP {q : ℚ} (h : isTwoDP q) : jround2 q = q := by
  obtain ⟨n, rfl⟩ := h
  unfold jround2 jround
  have h100 : ((n : ℚ) / 100) * 100 = (n : ℚ) := by
    field_simp
  rw [h100]
  norm_num [Int.floor_eq_iff]

theorem twoDP_zero : isTwoDP 0 := ⟨0, by norm_num⟩

theorem twoDP_sub {a b : ℚ} (ha : isTwoDP a) (hb : isTwoDP b) : isTwoDP (a - b) := by
  obtain ⟨m, rfl⟩ := ha
  obtain ⟨n, rfl⟩ := hb
  exact ⟨m - n, by push_cast; ring⟩

theorem twoDP_add {a b : ℚ} (ha : isTwoDP a) (hb : isTwoDP b) : isTwoDP (a + b) := by
  obtain ⟨m, rfl⟩ := ha
  obtain ⟨n, rfl⟩ := hb
  exact ⟨m + n, by push_cast; ring⟩

theorem calculateTaxDue_twoDP (x : ℚ) (bands : List TaxBand) :
    isTwoDP (calculateTaxDue x bands) := by
  unfold calculateTaxDue
  split
  · exact twoDP_zero
  · exact jround2_twoDP _

theorem calculateTaxForSlice_twoDP (a p : ℚ) (bands : List TaxBand) :
    isTwoDP (calculateTaxForSlice a p bands) := by
  unfold calculateTaxForSlice
  split
  · exact twoDP_zero
  · exact jround2_twoDP _

theorem jround2_calculateTaxForSlice (a p : ℚ) (bands : List TaxBand) :
    jround2 (calculateTaxForSlice a p bands) = calculateTaxForSlice a p bands :=
  jround2_of_twoDP (calculateTaxForSlice_twoDP a p bands)

theorem safeRound_num (q : ℚ) : safeRound (.num q) = jround2 q := rfl

theorem safeRound_twoDP (j : JSNum) : isTwoDP (safeRound j) := by
  cases j with
  | num q => exact jround2_twoDP q
  | inf => exact twoDP_zero
  | ninf => exact twoDP_zero
  | nan => exact twoDP_zero

/-- Positive increments make `calculateIncrementalTax` the exact
difference of the two full band evaluations: both evaluations are
2-decimal-place amounts, so the final rounding is the identity. -/
theorem calculateIncrementalTax_pos {amount : ℚ} (position : ℚ) (bands : List TaxBand)
    (h : 0 < amount) :
    calculateIncrementalTax position amount bands =
      calculateTaxDue (position + amount) bands - calculateTaxDue position bands := by
  unfold calculateIncrementalTax
  rw [if_neg (not_le.mpr h)]
  exact jround2_of_twoDP
    (twoDP_sub (calculateTaxDue_twoDP _ _) (calculateTaxDue_twoDP _ _))

/-- The slice loop on a non-positive remainder never adds tax. -/
theorem sliceLoop_nonpos (bands : List TaxBand) (pos tax remaining : ℚ)
    (h : remaining ≤ 0) : sliceLoop bands remaining pos tax = tax := by
  cases bands with
  | nil => rfl
  | cons b rest => simp [sliceLoop, if_pos h]

/-- The `calculateTaxDue` loop and the `calculateTaxForSlice` loop agree
whenever they start from the same position. -/
theorem dueLoop_eq_sliceLoop (bands : List TaxBand) :
    ∀ r p t : ℚ, dueLoop bands r p t = sliceLoop bands r p t := by
  induction bands with
  | nil => intro r p t; rfl
  | cons b rest ih =>
    intro r p t
    by_cases hr : r ≤ 0
    · rw [sliceLoop, if_pos hr]
      cases hl : b.limit with
      | none =>
        simp only [dueLoop, hl]
        rw [if_neg (by linarith)]
      | some l =>
        have h1 : ¬ (0 < min r (l - p)) :=
          not_lt.mpr (le_trans (min_le_left _ _) hr)
        simp only [dueLoop, hl, if_neg h1, if_pos hr]
    · push_neg at hr
      rw [sliceLoop, if_neg (not_le.mpr hr)]
      cases hl : b.limit with
      | none =>
        simp only [dueLoop, hl]
        rw [if_pos hr, sliceLoop_nonpos rest _ _ 0 le_rfl]
      | some l =>
        by_cases hw : 0 < l - p
        · have hroom : max 0 (l - p) = l - p := max_eq_right (le_of_lt hw)
          have hmin : 0 < min r (l - p) := lt_min hr hw
          simp only [dueLoop, hl, hroom, if_pos hmin]
          by_cases hr' : r - min r (l - p) ≤ 0
          · rw [if_pos hr', sliceLoop_nonpos rest _ _ _ hr']
          · push_neg at hr'
            have hm : min r (l - p) = l - p := by
              rcases min_cases r (l - p) with ⟨h1, h2⟩ | ⟨h1, h2⟩
              · linarith
              · exact h1
            have hpos : l ≤ p + min r (l - p) := by rw [hm]; linarith
            rw [if_neg (not_le.mpr hr'), if_pos hpos]
            exact ih _ _ _
        · push_neg at hw
          have hroom : max 0 (l - p) = 0 := max_eq_left hw
          have hmin0 : min r (0 : ℚ) = 0 := min_eq_right (le_of_lt hr)
          have h1 : ¬ (0 < min r (l - p)) :=
            not_lt.mpr (le_trans (min_le_right _ _) hw)
          simp only [dueLoop, hl, hroom, hmin0, if_neg h1, lt_irrefl,
            if_false, if_neg (not_le.mpr hr), if_pos (show l ≤ p by linarith)]
          exact ih _ _ _

/-!
## Concrete fixtures used by witnesses and counterexamples
-/

/-- A one-off income source of 30,000 (one-off sources are never
projected, so the calendar plays no role). -/
def sampleOneOff30000 : IncomeSource :=
  ⟨"1", "One-off", 30000, false, TAX_YEAR_START, TAX_YEAR_END, none, none, none, none⟩

/-- A one-off income source of 125,140. -/
def sampleOneOff125140 : IncomeSource :=
  ⟨"1", "One-off", 125140, false, TAX_YEAR_START, TAX_YEAR_END, none, none, none, none⟩

/-- A one-off income source of 10,000. -/
def sampleOneOff10000 : IncomeSource :=
  ⟨"2", "Second one-off", 10000, false, TAX_YEAR_START, TAX_YEAR_END, none, none, none, none⟩

/-- Options with the standard (rUK) band table and a fixed date. -/
def sampleOptions : CalculateTaxOptions := ⟨⟨2025, 9, 1⟩, false⟩

/-- An untaxed-interest adjustment of 1,000 (taxable-income kind). -/
def sampleInterest1000 : TaxAdjustment :=
  ⟨"a1", "Untaxed interest", 1000, .untaxed_interest⟩

/-- An untaxed-interest adjustment of −100 (taxable-income kind with a
negative amount, as the editing UI permits). -/
def sampleInterestNeg100 : TaxAdjustment :=
  ⟨"a2", "Interest correction", -100, .untaxed_interest⟩

/-!
## Claim C2: personal allowance taper
-/

/-- C2: for every total income `t`, `calculatePersonalAllowance` returns
the full allowance 12570 for `t ≤ 100000`, returns 0 for `t ≥ 125140`,
returns `max 0 (12570 - (t - 100000) / 2)` strictly between the
thresholds (hence is linear there with slope −1/2), and agrees with the
constant branches at both boundary points (continuity). -/
theorem C2_theorem :
    (∀ t : ℚ, t ≤ 100000 → calculatePersonalAllowance t = 12570) ∧
    (∀ t : ℚ, 125140 ≤ t → calculatePersonalAllowance t = 0) ∧
    (∀ t : ℚ, 100000 < t → t < 125140 →
      calculatePersonalAllowance t = max 0 (12570 - (t - 100000) / 2)) ∧
    (∀ t₁ t₂ : ℚ, 100000 < t₁ → t₁ < 125140 → 100000 < t₂ → t₂ < 125140 →
      calculatePersonalAllowance t₂ - calculatePersonalAllowance t₁ = -(1/2) * (t₂ - t₁)) ∧
    calculatePersonalAllowance 100000 = 12570 ∧
    calculatePersonalAllowance 125140 = 0 := by
  have hmid : ∀ t : ℚ, 100000 < t → t < 125140 →
      calculatePersonalAllowance t = 12570 - (t - 100000) / 2 := by
    intro t h1 h2
    unfold calculatePersonalAllowance TAPER_THRESHOLD TAPER_LIMIT PERSONAL_ALLOWANCE
    rw [if_neg (not_le.mpr h1), if_neg (not_le.mpr h2)]
    exact max_eq_right (by linarith)
  refine ⟨?_, ?_, ?_, ?_, ?_, ?_⟩
  · intro t ht
    unfold calculatePersonalAllowance TAPER_THRESHOLD PERSONAL_ALLOWANCE
    rw [if_pos ht]
  · intro t ht
    unfold calculatePersonalAllowance TAPER_THRESHOLD TAPER_LIMIT
    rw [if_neg (not_le.mpr (by linarith)), if_pos ht]
  · intro t h1 h2
    rw [hmid t h1 h2]
    exact (max_eq_right (by linarith)).symm
  · intro t₁ t₂ ha hb hc hd
    rw [hmid t₁ ha hb, hmid t₂ hc hd]
    ring
  · unfold calculatePersonalAllowance TAPER_THRESHOLD PERSONAL_ALLOWANCE
    rw [if_pos le_rfl]
  · unfold calculatePersonalAllowance TAPER_THRESHOLD TAPER_LIMIT
    rw [if_neg (by norm_num), if_pos le_rfl]

/-- C2 witness: the three regimes and the slope, at concrete incomes. -/
theorem C2_witness :
    calculatePersonalAllowance 50000 = 12570 ∧
    calculatePersonalAllowance 130000 = 0 ∧
    calculatePersonalAllowance 110000 = max 0 (12570 - ((110000 : ℚ) - 100000) / 2) ∧
    calculatePersonalAllowance 120000 - calculatePersonalAllowance 110000 =
      -(1/2) * ((120000 : ℚ) - 110000) :=
  ⟨C2_theorem.1 50000 (by norm_num), C2_theorem.2.1 130000 (by norm_num),
   C2_theorem.2.2.1 110000 (by norm_num) (by norm_num),
   C2_theorem.2.2.2.1 110000 120000 (by norm_num) (by norm_num) (by norm_num) (by norm_num)⟩

/-!
## Claim C5: `calculateTaxDue` is `calculateTaxForSlice` from position 0
-/

/-- C5: for every taxable income and every well-formed band table the
convenience wrapper agrees with the slice engine at starting position 0,
and `calculateTaxDue` returns 0 on every non-positive input.  (The
agreement in fact holds for arbitrary band tables.) -/
theorem C5_theorem (bands : List TaxBand) (hwf : WellFormedBands bands) (x : ℚ) :
    calculateTaxDue x bands = calculateTaxForSlice x 0 bands ∧
    (x ≤ 0 → calculateTaxDue x bands = 0) := by
  refine ⟨?_, ?_⟩
  · unfold calculateTaxDue calculateTaxForSlice
    by_cases h : x ≤ 0
    · rw [if_pos h, if_pos h]
    · rw [if_neg h, if_neg h, dueLoop_eq_sliceLoop]
  · intro h
    unfold calculateTaxDue
    rw [if_pos h]

/-- C5 witness: the rUK table is well formed; wrapper and slice engine
agree at 20000, and the wrapper returns 0 at −5. -/
theorem C5_witness :
    WellFormedBands TAX_BANDS ∧
    calculateTaxDue 20000 TAX_BANDS = calculateTaxForSlice 20000 0 TAX_BANDS ∧
    calculateTaxDue (-5) TAX_BANDS = 0 := by
  have hwf : WellFormedBands TAX_BANDS := by
    constructor
    · simp only [TAX_BANDS, List.chain'_cons, List.chain'_singleton, and_true, limitLt]
      norm_num
    · simp [TAX_BANDS]
  exact ⟨hwf, (C5_theorem TAX_BANDS hwf 20000).1,
    (C5_theorem TAX_BANDS hwf (-5)).2 (by norm_num)⟩

/-!
## Claim C3: additivity of `calculateTaxForSlice` across a split
-/

/-- C3 (failing input): the slice engine is not additive.  Splitting
130000 at position 50000 under the rUK table loses the 45% band: the
cursor-clamp in the loop pulls a start position of 50000 back to 37700,
so the second slice is entirely taxed at 40%. -/
theorem C3_theorem :
    calculateTaxForSlice 50000 0 TAX_BANDS = 12460 ∧
    calculateTaxForSlice 80000 50000 TAX_BANDS = 32000 ∧
    calculateTaxForSlice (50000 + 80000) 0 TAX_BANDS = 44703 ∧
    calculateTaxForSlice 50000 0 TAX_BANDS + calculateTaxForSlice 80000 50000 TAX_BANDS ≠
      calculateTaxForSlice (50000 + 80000) 0 TAX_BANDS := by
  have h1 : calculateTaxForSlice 50000 0 TAX_BANDS = 12460 := by
    norm_num [calculateTaxForSlice, sliceLoop, TAX_BANDS, jround2, jround, min_def, max_def]
  have h2 : calculateTaxForSlice 80000 50000 TAX_BANDS = 32000 := by
    norm_num [calculateTaxForSlice, sliceLoop, TAX_BANDS, jround2, jround, min_def, max_def]
  have h3 : calculateTaxForSlice (50000 + 80000) 0 TAX_BANDS = 44703 := by
    norm_num [calculateTaxForSlice, sliceLoop, TAX_BANDS, jround2, jround, min_def, max_def]
  refine ⟨h1, h2, h3, ?_⟩
  rw [h1, h2, h3]
  norm_num

/-!
## Claim C9: the 125,140 scenario
-/

/-- Helper evaluation shared by the C9 theorem and counterexample: the
engine's figures for a single one-off source of 125,140 with no
deductions or adjustments under the rUK table. -/
theorem calculateTax_at_125140 :
    (DaysBased.calculateTax [sampleOneOff125140] [] [] sampleOptions).personalAllowance = 0 ∧
    (DaysBased.calculateTax [sampleOneOff125140] [] [] sampleOptions).taxDueOnIncome = 42516 := by
  constructor
  · norm_num [DaysBased.calculateTax, DaysBased.totalIncomeOf, DaysBased.projectedIncomesOf,
      DaysBased.resolveSourceIncome, sampleOneOff125140, sampleOptions, bandsOf,
      calculatePersonalAllowance, TAPER_THRESHOLD, TAPER_LIMIT, PERSONAL_ALLOWANCE,
      safeRound, jround2, jround]
  · norm_num [DaysBased.calculateTax, DaysBased.taxableAfterDeductionsOf,
      DaysBased.taxableBeforeDeductionsOf, DaysBased.totalIncomeOf,
      DaysBased.projectedIncomesOf, DaysBased.resolveSourceIncome, totalDeductionsOf,
      sampleOneOff125140, sampleOptions, bandsOf, calculatePersonalAllowance,
      TAPER_THRESHOLD, TAPER_LIMIT, PERSONAL_ALLOWANCE, safeRound,
      calculateTaxDue, dueLoop, TAX_BANDS, jround2, jround, min_def, max_def]

/-- C9 (counterexample): at total income 125,140 the engine's tax due on
income is 42,516.00, which is not approximately 43,307.60 (the gap is
791.60). -/
theorem C9_counterexample :
    (DaysBased.calculateTax [sampleOneOff125140] [] [] sampleOptions).taxDueOnIncome = 42516 ∧
    ¬ |(DaysBased.calculateTax [sampleOneOff125140] [] [] sampleOptions).taxDueOnIncome -
        43307.6| ≤ 1/2 := by
  refine ⟨calculateTax_at_125140.2, ?_⟩
  rw [calculateTax_at_125140.2]
  rw [abs_of_nonpos (by norm_num)]
  norm_num

/-- C9 (amended): total income exactly 125,140 under the rUK table with
no deductions or adjustments gives personal allowance 0 and tax due on
income 42,516.00 (37,700 at 20% plus 87,440 at 40%). -/
theorem C9_theorem :
    (DaysBased.calculateTax [sampleOneOff125140] [] [] sampleOptions).personalAllowance = 0 ∧
    (DaysBased.calculateTax [sampleOneOff125140] [] [] sampleOptions).taxDueOnIncome = 42516 :=
  calculateTax_at_125140

/-!
## Claim C4: the sequential allocator is the specified fold
-/

/-- The allocator loop emits, per source, exactly the records of the
specification fold (allowance used, taxable, tax due), the stored amounts
being the 2-decimal-place roundings the engine applies at the record
boundary (`taxOnSlice` output is already 2dp). -/
theorem allocGo_spec (taxBands : List TaxBand) :
    ∀ (sources : List IncomeSource) (incomes : List ℚ) (pa pos : ℚ),
      sources.length = incomes.length →
      ((allocGo taxBands sources incomes pa pos).1).map
          (fun d => (d.paUsed, d.taxableIncome, d.taxDue)) =
        (specSeqAlloc taxBands pa pos incomes).map
          (fun r => (jround2 r.1, jround2 r.2.1, r.2.2)) := by
  intro sources
  induction sources with
  | nil =>
    intro incomes pa pos hlen
    cases incomes with
    | nil => rfl
    | cons i is => simp at hlen
  | cons s ss ih =>
    intro incomes pa pos hlen
    cases incomes with
    | nil => simp at hlen
    | cons i is =>
      simp only [List.length_cons, Nat.add_right_cancel_iff] at hlen
      simp only [allocGo, specSeqAlloc, List.map_cons, List.cons.injEq]
      refine ⟨?_, ih is _ _ hlen⟩
      simp [jround2_calculateTaxForSlice]

/-- C4: `calculateTax` hands the allocator the projected incomes and the
computed personal allowance, and for every ordered source list with
incomes (of matching length, all non-negative) the allocator computes
each source's record by the fold of the specification, starting from the
granted allowance and band position 0. -/
theorem C4_theorem :
    (∀ (sources : List IncomeSource) (deductions : List Deduction)
        (adjustments : List TaxAdjustment) (options : CalculateTaxOptions),
      (DaysBased.calculateTax sources deductions adjustments options).sourceDetails =
        allocateTaxSequentially sources (DaysBased.projectedIncomesOf options sources)
          (calculatePersonalAllowance (DaysBased.totalIncomeOf options sources))
          (bandsOf options)) ∧
    (∀ (taxBands : List TaxBand) (sources : List IncomeSource) (incomes : List ℚ) (pa : ℚ),
      sources.length = incomes.length → (∀ q ∈ incomes, 0 ≤ q) →
      ((allocateTaxSequentially sources incomes pa taxBands).map
          (fun d => (d.paUsed, d.taxableIncome, d.taxDue)) =
        (specSeqAlloc taxBands pa 0 incomes).map
          (fun r => (jround2 r.1, jround2 r.2.1, r.2.2)))) := by
  refine ⟨fun _ _ _ _ => rfl, ?_⟩
  intro taxBands sources incomes pa hlen _
  exact allocGo_spec taxBands sources incomes pa 0 hlen

/-- C4 witness: one one-off source of 30,000 with allowance 12,570. -/
theorem C4_witness :
    (allocateTaxSequentially [sampleOneOff30000] [30000] 12570 TAX_BANDS).map
        (fun d => (d.paUsed, d.taxableIncome, d.taxDue)) =
      (specSeqAlloc TAX_BANDS 12570 0 [30000]).map
        (fun r => (jround2 r.1, jround2 r.2.1, r.2.2)) :=
  C4_theorem.2 TAX_BANDS [sampleOneOff30000] [30000] 12570 (by simp)
    (by intro q hq; simp at hq; simp [hq])

/-!
## Claim C6: reordering sources leaves `taxDueOnIncome` unchanged
-/

/-- C6: for every permutation of the income source list (deductions,
adjustments and options fixed), the aggregate `taxDueOnIncome` of
`calculateTax` is unchanged: it is recomputed from the order-independent
income total, not from the order-dependent per-source attribution. -/
theorem C6_theorem (options : CalculateTaxOptions) (deductions : List Deduction)
    (adjustments : List TaxAdjustment) (sources sources' : List IncomeSource)
    (h : sources.Perm sources') :
    (DaysBased.calculateTax sources' deductions adjustments options).taxDueOnIncome =
      (DaysBased.calculateTax sources deductions adjustments options).taxDueOnIncome := by
  have ht : DaysBased.totalIncomeOf options sources = DaysBased.totalIncomeOf options sources' :=
    List.Perm.sum_eq (h.map (DaysBased.resolveSourceIncome options.today))
  show safeRound (.num (calculateTaxDue
      (DaysBased.taxableAfterDeductionsOf options sources' deductions) (bandsOf options))) =
    safeRound (.num (calculateTaxDue
      (DaysBased.taxableAfterDeductionsOf options sources deductions) (bandsOf options)))
  unfold DaysBased.taxableAfterDeductionsOf DaysBased.taxableBeforeDeductionsOf
  rw [ht]

/-- C6 witness: swapping two one-off sources leaves `taxDueOnIncome`
unchanged. -/
theorem C6_witness :
    (DaysBased.calculateTax [sampleOneOff10000, sampleOneOff30000] [] [] sampleOptions).taxDueOnIncome =
      (DaysBased.calculateTax [sampleOneOff30000, sampleOneOff10000] [] [] sampleOptions).taxDueOnIncome :=
  C6_theorem sampleOptions [] [] [sampleOneOff30000, sampleOneOff10000]
    [sampleOneOff10000, sampleOneOff30000]
    (List.Perm.swap sampleOneOff10000 sampleOneOff30000 [])

/-!
## Claim C1: adjustment stacking in `calculateTax` (PAYE-period snapshot)
-/

/-- The adjustment loop of step 6 accumulates exactly the
specification-side contributions, provided every taxable-income
adjustment has a positive amount (for those the engine's
`calculateIncrementalTax` is the exact two-evaluation difference). -/
theorem adjFold_totalTax (taxBands : List TaxBand) :
    ∀ (adjustments : List TaxAdjustment) (st : PayePeriods.AdjState),
      (∀ a ∈ adjustments, isAdjustmentTaxableIncome a.type = true → 0 < a.amount) →
      (List.foldl (PayePeriods.adjStep taxBands) st adjustments).totalAdjustmentTax =
        st.totalAdjustmentTax +
          (specAdjustmentTaxes taxBands st.currentTaxableIncome adjustments).sum := by
  intro adjustments
  induction adjustments with
  | nil => intro st _; simp [specAdjustmentTaxes]
  | cons a rest ih =>
    intro st h
    have htail : ∀ b ∈ rest, isAdjustmentTaxableIncome b.type = true → 0 < b.amount :=
      fun b hb => h b (List.mem_cons_of_mem _ hb)
    by_cases hk : isAdjustmentTaxableIncome a.type = true
    · have hpos : 0 < a.amount := h a (List.mem_cons_self _ _) hk
      have hTot : (PayePeriods.adjStep taxBands st a).totalAdjustmentTax =
          st.totalAdjustmentTax +
            calculateIncrementalTax st.currentTaxableIncome a.amount taxBands := by
        simp [PayePeriods.adjStep, hk]
      have hCur : (PayePeriods.adjStep taxBands st a).currentTaxableIncome =
          st.currentTaxableIncome + a.amount := by
        simp [PayePeriods.adjStep, hk]
      have hspec : specAdjustmentTaxes taxBands st.currentTaxableIncome (a :: rest) =
          (calculateTaxDue (st.currentTaxableIncome + a.amount) taxBands -
              calculateTaxDue st.currentTaxableIncome taxBands) ::
            specAdjustmentTaxes taxBands (st.currentTaxableIncome + a.amount) rest := by
        simp [specAdjustmentTaxes, hk]
      rw [List.foldl_cons, ih _ htail, hTot, hCur, hspec, List.sum_cons,
        calculateIncrementalTax_pos st.currentTaxableIncome taxBands hpos]
      ring
    · have hTot : (PayePeriods.adjStep taxBands st a).totalAdjustmentTax =
          st.totalAdjustmentTax + a.amount := by
        simp [PayePeriods.adjStep, hk]
      have hCur : (PayePeriods.adjStep taxBands st a).currentTaxableIncome =
          st.currentTaxableIncome := by
        simp [PayePeriods.adjStep, hk]
      have hspec : specAdjustmentTaxes taxBands st.currentTaxableIncome (a :: rest) =
          a.amount :: specAdjustmentTaxes taxBands st.currentTaxableIncome rest := by
        simp [specAdjustmentTaxes, hk]
      rw [List.foldl_cons, ih _ htail, hTot, hCur, hspec, List.sum_cons]
      ring
/-- C1 (amended): in the PAYE-period `calculateTax`, provided every
taxable-income adjustment has a positive amount, `finalTaxDue` is
`taxDueOnIncome` plus the sum of the specification-side contributions
(each taxable-income adjustment contributing `taxDue(position + amount) −
taxDue(position)` from a position that starts at the taxable income after
deductions and advances by each such amount; each direct-tax adjustment
contributing its amount), under the engine's final 2dp rounding.
Non-positive taxable-income amounts instead contribute 0 while still
advancing the position (see the counterexample). -/
theorem C1_theorem (sources : List IncomeSource) (deductions : List Deduction)
    (adjustments : List TaxAdjustment) (options : CalculateTaxOptions)
    (h : ∀ a ∈ adjustments, isAdjustmentTaxableIncome a.type = true → 0 < a.amount) :
    (PayePeriods.calculateTax sources deductions adjustments options).finalTaxDue =
      jround2 ((PayePeriods.calculateTax sources deductions adjustments options).taxDueOnIncome +
        (specAdjustmentTaxes (bandsOf options)
          (PayePeriods.taxableAfterDeductionsOf options sources deductions) adjustments).sum) := by
  have h1 : (PayePeriods.calculateTax sources deductions adjustments options).finalTaxDue =
      jround2 (calculateTaxDue (PayePeriods.taxableAfterDeductionsOf options sources deductions)
          (bandsOf options) +
        (PayePeriods.adjFinalOf options sources deductions adjustments).totalAdjustmentTax) := rfl
  have h2 : (PayePeriods.calculateTax sources deductions adjustments options).taxDueOnIncome =
      calculateTaxDue (PayePeriods.taxableAfterDeductionsOf options sources deductions)
        (bandsOf options) :=
    jround2_of_twoDP (calculateTaxDue_twoDP _ _)
  have h3 : (PayePeriods.adjFinalOf options sources deductions adjustments).totalAdjustmentTax =
      0 + (specAdjustmentTaxes (bandsOf options)
        (PayePeriods.taxableAfterDeductionsOf options sources deductions) adjustments).sum :=
    adjFold_totalTax (bandsOf options) adjustments
      ⟨0, 0, PayePeriods.taxableAfterDeductionsOf options sources deductions⟩ h
  rw [h1, h2, h3, zero_add]

/-- C1 witness: one one-off source of 30,000 and one positive
untaxed-interest adjustment of 1,000. -/
theorem C1_witness :
    (PayePeriods.calculateTax [sampleOneOff30000] [] [sampleInterest1000] sampleOptions).finalTaxDue =
      jround2 ((PayePeriods.calculateTax [sampleOneOff30000] [] [sampleInterest1000]
          sampleOptions).taxDueOnIncome +
        (specAdjustmentTaxes (bandsOf sampleOptions)
          (PayePeriods.taxableAfterDeductionsOf sampleOptions [sampleOneOff30000] [])
          [sampleInterest1000]).sum) :=
  C1_theorem [sampleOneOff30000] [] [sampleInterest1000] sampleOptions
    (by
      intro a ha _
      simp only [List.mem_singleton] at ha
      subst ha
      norm_num [sampleInterest1000])

/-- C1 (counterexample): with a taxable-income adjustment of −100 on top
of a taxable position of 17,430, the engine contributes 0 (final tax due
3,486) while the claimed incremental formula yields −20 (final tax due
3,466): the claim fails for non-positive amounts. -/
theorem C1_counterexample :
    (PayePeriods.calculateTax [sampleOneOff30000] [] [sampleInterestNeg100]
        sampleOptions).finalTaxDue = 3486 ∧
    jround2 ((PayePeriods.calculateTax [sampleOneOff30000] [] [sampleInterestNeg100]
          sampleOptions).taxDueOnIncome +
        (specAdjustmentTaxes (bandsOf sampleOptions)
          (PayePeriods.taxableAfterDeductionsOf sampleOptions [sampleOneOff30000] [])
          [sampleInterestNeg100]).sum) = 3466 := by
  constructor
  · norm_num [PayePeriods.calculateTax, PayePeriods.adjFinalOf, PayePeriods.adjStep,
      PayePeriods.taxableAfterDeductionsOf, PayePeriods.taxableBeforeDeductionsOf,
      PayePeriods.totalIncomeOf, PayePeriods.projectedIncomesOf,
      PayePeriods.resolveSourceIncome, totalDeductionsOf, bandsOf, sampleOptions,
      sampleOneOff30000, sampleInterestNeg100, isAdjustmentTaxableIncome,
      calculateIncrementalTax, calculateTaxDue, dueLoop, TAX_BANDS,
      calculatePersonalAllowance, TAPER_THRESHOLD, TAPER_LIMIT, PERSONAL_ALLOWANCE,
      safeRound, jround2, jround, min_def, max_def]
  · norm_num [PayePeriods.calculateTax, PayePeriods.taxableAfterDeductionsOf,
      PayePeriods.taxableBeforeDeductionsOf, PayePeriods.totalIncomeOf,
      PayePeriods.projectedIncomesOf, PayePeriods.resolveSourceIncome, totalDeductionsOf,
      bandsOf, sampleOptions, sampleOneOff30000, sampleInterestNeg100,
      specAdjustmentTaxes, isAdjustmentTaxableIncome, calculateTaxDue, dueLoop, TAX_BANDS,
      calculatePersonalAllowance, TAPER_THRESHOLD, TAPER_LIMIT, PERSONAL_ALLOWANCE,
      safeRound, jround2, jround, min_def, max_def]

/-!
## Claim C7: monotonicity of the band-position cursors
-/

/-- The allocator's band-position cursor after `k + 1` sources is at
least the cursor after `k` sources, for any inputs: each source's
taxable amount `income − min(paRemaining, income)` is non-negative. -/
theorem allocGo_take_mono (taxBands : List TaxBand) :
    ∀ (k : ℕ) (sources : List IncomeSource) (incomes : List ℚ) (pa pos : ℚ),
      (allocGo taxBands (sources.take k) (incomes.take k) pa pos).2.2 ≤
        (allocGo taxBands (sources.take (k + 1)) (incomes.take (k + 1)) pa pos).2.2 := by
  intro k
  induction k with
  | zero =>
    intro sources incomes pa pos
    cases sources with
    | nil => simp [allocGo]
    | cons s ss =>
      cases incomes with
      | nil => simp [allocGo]
      | cons i is =>
        simp only [List.take_zero, List.take_succ_cons, List.take_zero, allocGo]
        have : min pa i ≤ i := min_le_right _ _
        linarith
  | succ k ih =>
    intro sources incomes pa pos
    cases sources with
    | nil => simp [allocGo]
    | cons s ss =>
      cases incomes with
      | nil => simp [allocGo]
      | cons i is =>
        simp only [List.take_succ_cons, allocGo]
        exact ih ss is _ _

/-- The adjustment loop's taxable position after `k + 1` adjustments is
at least the position after `k`, provided every taxable-income
adjustment has a non-negative amount (direct-tax adjustments never move
the position). -/
theorem adjTake_mono (taxBands : List TaxBand) :
    ∀ (k : ℕ) (adjustments : List TaxAdjustment) (st : PayePeriods.AdjState),
      (∀ a ∈ adjustments, isAdjustmentTaxableIncome a.type = true → 0 ≤ a.amount) →
      (List.foldl (PayePeriods.adjStep taxBands) st (adjustments.take k)).currentTaxableIncome ≤
        (List.foldl (PayePeriods.adjStep taxBands) st
          (adjustments.take (k + 1))).currentTaxableIncome := by
  intro k
  induction k with
  | zero =>
    intro adjustments st h
    cases adjustments with
    | nil => simp
    | cons a rest =>
      simp only [List.take_zero, List.take_succ_cons, List.foldl_nil, List.foldl_cons]
      by_cases hk : isAdjustmentTaxableIncome a.type = true
      · have hpos : 0 ≤ a.amount := h a (List.mem_cons_self _ _) hk
        have hCur : (PayePeriods.adjStep taxBands st a).currentTaxableIncome =
            st.currentTaxableIncome + a.amount := by
          simp [PayePeriods.adjStep, hk]
        rw [hCur]
        linarith
      · have hCur : (PayePeriods.adjStep taxBands st a).currentTaxableIncome =
            st.currentTaxableIncome := by
          simp [PayePeriods.adjStep, hk]
        rw [hCur]
  | succ k ih =>
    intro adjustments st h
    cases adjustments with
    | nil => simp
    | cons a rest =>
      simp only [List.take_succ_cons, List.foldl_cons]
      exact ih rest (PayePeriods.adjStep taxBands st a)
        (fun b hb => h b (List.mem_cons_of_mem _ hb))

/-- C7 (amended): within one `calculateTax` call the allocator's
band-position cursor is monotonically non-decreasing across the ordered
sources for any source incomes, and the adjustment loop's
`currentTaxableIncome` cursor is monotonically non-decreasing across the
adjustments provided every taxable-income adjustment has a non-negative
amount; a negative-amount taxable-income adjustment moves it backwards
(see the counterexample). -/
theorem C7_theorem :
    (∀ (taxBands : List TaxBand) (k : ℕ) (sources : List IncomeSource) (incomes : List ℚ)
        (pa pos : ℚ),
      (allocGo taxBands (sources.take k) (incomes.take k) pa pos).2.2 ≤
        (allocGo taxBands (sources.take (k + 1)) (incomes.take (k + 1)) pa pos).2.2) ∧
    (∀ (taxBands : List TaxBand) (k : ℕ) (adjustments : List TaxAdjustment)
        (st : PayePeriods.AdjState),
      (∀ a ∈ adjustments, isAdjustmentTaxableIncome a.type = true → 0 ≤ a.amount) →
      (List.foldl (PayePeriods.adjStep taxBands) st (adjustments.take k)).currentTaxableIncome ≤
        (List.foldl (PayePeriods.adjStep taxBands) st
          (adjustments.take (k + 1))).currentTaxableIncome) :=
  ⟨fun taxBands k sources incomes pa pos => allocGo_take_mono taxBands k sources incomes pa pos,
   fun taxBands k adjustments st h => adjTake_mono taxBands k adjustments st h⟩

/-- C7 witness: both cursors at concrete inputs (two sources starting
from the granted allowance and position 0; one positive taxable-income
adjustment starting from position 17,430). -/
theorem C7_witness :
    (allocGo TAX_BANDS ([sampleOneOff30000, sampleOneOff10000].take 1)
        ([(30000 : ℚ), 10000].take 1) 12570 0).2.2 ≤
      (allocGo TAX_BANDS ([sampleOneOff30000, sampleOneOff10000].take 2)
        ([(30000 : ℚ), 10000].take 2) 12570 0).2.2 ∧
    (List.foldl (PayePeriods.adjStep TAX_BANDS) ⟨0, 0, 17430⟩
        ([sampleInterest1000].take 0)).currentTaxableIncome ≤
      (List.foldl (PayePeriods.adjStep TAX_BANDS) ⟨0, 0, 17430⟩
        ([sampleInterest1000].take 1)).currentTaxableIncome :=
  ⟨C7_theorem.1 TAX_BANDS 1 [sampleOneOff30000, sampleOneOff10000] [30000, 10000] 12570 0,
   C7_theorem.2 TAX_BANDS 0 [sampleInterest1000] ⟨0, 0, 17430⟩
    (by
      intro a ha _
      simp only [List.mem_singleton] at ha
      subst ha
      norm_num [sampleInterest1000])⟩

/-- C7 (counterexample): seeded exactly as one `calculateTax` call with a
single one-off source of 30,000 and a taxable-income adjustment of −100,
the adjustment cursor decreases from 17,430 to 17,330. -/
theorem C7_counterexample :
    (List.foldl (PayePeriods.adjStep (bandsOf sampleOptions))
        ⟨0, 0, PayePeriods.taxableAfterDeductionsOf sampleOptions [sampleOneOff30000] []⟩
        ([sampleInterestNeg100].take 1)).currentTaxableIncome <
      (List.foldl (PayePeriods.adjStep (bandsOf sampleOptions))
        ⟨0, 0, PayePeriods.taxableAfterDeductionsOf sampleOptions [sampleOneOff30000] []⟩
        ([sampleInterestNeg100].take 0)).currentTaxableIncome := by
  norm_num [PayePeriods.adjStep, PayePeriods.taxableAfterDeductionsOf,
    PayePeriods.taxableBeforeDeductionsOf, PayePeriods.totalIncomeOf,
    PayePeriods.projectedIncomesOf, PayePeriods.resolveSourceIncome, totalDeductionsOf,
    bandsOf, sampleOptions, sampleOneOff30000, sampleInterestNeg100,
    isAdjustmentTaxableIncome, calculatePersonalAllowance, TAPER_THRESHOLD, TAPER_LIMIT,
    PERSONAL_ALLOWANCE, max_def]

/-!
## Claim C8: `calculateProjectedIncome` degenerate-case handling
-/

/-- C8 (amended): the days-based `calculateProjectedIncome` is a total
function on all JS numbers and dates (it never throws; division is
guarded by `daysWorked ≥ 1`).  It returns `incomeToDate` unprojected when
the initially derived as-of date is strictly before the start date and
today is not after the start date; and whenever the computed projection
is non-finite the main path falls back to `incomeToDate`.  When the
as-of date merely equals the start date the function instead projects
from a single day worked (see the counterexample). -/
theorem C8_theorem :
    (∀ (incomeToDate : JSNum) (startDate today : JSDate) (includeCurrentMonth : Bool),
      epochDay (DaysBased.asOfInitial includeCurrentMonth today) < epochDay startDate →
      epochDay today ≤ epochDay startDate →
      (DaysBased.calculateProjectedIncomeJS incomeToDate startDate includeCurrentMonth
        today).projected = incomeToDate) ∧
    (∀ (incomeToDate : JSNum) (start asOf : JSDate),
      (DaysBased.rawProjection incomeToDate start asOf).isFinite = false →
      (DaysBased.projectionMain incomeToDate start asOf).projected = incomeToDate) := by
  constructor
  · intro incomeToDate startDate today includeCurrentMonth h1 h2
    unfold DaysBased.calculateProjectedIncomeJS
    rw [if_pos h1, if_pos h2]
  · intro incomeToDate start asOf h
    unfold DaysBased.projectionMain
    simp [h]

/-- C8 witness: with today strictly before the start the income is
returned unprojected, and a `NaN` projection falls back to the income. -/
theorem C8_witness :
    (DaysBased.calculateProjectedIncomeJS (.num 100) TAX_YEAR_START true
      ⟨2025, 3, 5⟩).projected = .num 100 ∧
    (DaysBased.projectionMain .nan TAX_YEAR_START ⟨2025, 9, 1⟩).projected = .nan :=
  ⟨C8_theorem.1 (.num 100) TAX_YEAR_START ⟨2025, 3, 5⟩ true (by decide) (by decide),
   C8_theorem.2 .nan TAX_YEAR_START ⟨2025, 9, 1⟩ (by rfl)⟩

/-- C8 (counterexample): with `includeCurrentMonth` and today equal to the
start date the as-of date is not after the start date, yet the function
does not return `incomeToDate`: it projects 100 of income from one day
worked to 36,500. -/
theorem C8_counterexample :
    epochDay (DaysBased.asOfInitial true TAX_YEAR_START) ≤ epochDay TAX_YEAR_START ∧
    (DaysBased.calculateProjectedIncomeJS (.num 100) TAX_YEAR_START true
      TAX_YEAR_START).projected = .num 36500 ∧
    (DaysBased.calculateProjectedIncomeJS (.num 100) TAX_YEAR_START true
      TAX_YEAR_START).projected ≠ .num 100 := by
  have hd : daysBetween TAX_YEAR_START TAX_YEAR_END = 365 := by decide
  have he : daysBetween TAX_YEAR_START TAX_YEAR_START = 1 := by decide
  have hlt : ¬ (epochDay (DaysBased.asOfInitial true TAX_YEAR_START) <
      epochDay TAX_YEAR_START) := by decide
  have heval : (DaysBased.calculateProjectedIncomeJS (.num 100) TAX_YEAR_START true
      TAX_YEAR_START).projected = .num 36500 := by
    unfold DaysBased.calculateProjectedIncomeJS
    rw [if_neg hlt]
    norm_num [DaysBased.projectionMain, DaysBased.rawProjection, DaysBased.asOfInitial,
      hd, he, JSNum.divQ, JSNum.mulQ, JSNum.minJ, JSNum.gtZero, JSNum.round2,
      JSNum.isFinite, jround2, jround, min_def, max_def]
  refine ⟨by decide, heval, ?_⟩
  rw [heval]
  intro hc
  have hq := JSNum.num.inj hc
  norm_num at hq

/-!
## Claim C10: every numeric result field is `safeRound`ed
-/

/-- C10: `safeRound` coerces each non-finite value to 0 and always yields
an exact 2-decimal-place amount, and every numeric field of the
`CalculationResult` returned by `calculateTax` (all twelve of them,
including the legacy aliases) is produced by `safeRound` and is therefore
a (finite, in the exact-rational model inherently so) 2-decimal-place
amount, for every input. -/
theorem C10_theorem :
    (safeRound .inf = 0 ∧ safeRound .ninf = 0 ∧ safeRound .nan = 0) ∧
    (∀ j : JSNum, isTwoDP (safeRound j)) ∧
    (∀ (sources : List IncomeSource) (deductions : List Deduction)
        (adjustments : List TaxAdjustment) (options : CalculateTaxOptions),
      isTwoDP (DaysBased.calculateTax sources deductions adjustments options).totalIncome ∧
      isTwoDP (DaysBased.calculateTax sources deductions adjustments options).personalAllowance ∧
      isTwoDP (DaysBased.calculateTax sources deductions adjustments options).totalDeductions ∧
      isTwoDP (DaysBased.calculateTax sources deductions adjustments
        options).taxableIncomeBeforeDeductions ∧
      isTwoDP (DaysBased.calculateTax sources deductions adjustments
        options).taxableIncomeAfterDeductions ∧
      isTwoDP (DaysBased.calculateTax sources deductions adjustments options).taxDueOnIncome ∧
      isTwoDP (DaysBased.calculateTax sources deductions adjustments options).totalAdjustments ∧
      isTwoDP (DaysBased.calculateTax sources deductions adjustments options).finalTaxDue ∧
      isTwoDP (DaysBased.calculateTax sources deductions adjustments options).taxPaid ∧
      isTwoDP (DaysBased.calculateTax sources deductions adjustments options).netPosition ∧
      isTwoDP (DaysBased.calculateTax sources deductions adjustments options).taxableIncome ∧
      isTwoDP (DaysBased.calculateTax sources deductions adjustments options).taxDue) := by
  refine ⟨⟨rfl, rfl, rfl⟩, safeRound_twoDP, ?_⟩
  intro sources deductions adjustments options
  simp only [DaysBased.calculateTax]
  exact ⟨safeRound_twoDP _, safeRound_twoDP _, safeRound_twoDP _, safeRound_twoDP _,
    safeRound_twoDP _, safeRound_twoDP _, safeRound_twoDP _, safeRound_twoDP _,
    safeRound_twoDP _, safeRound_twoDP _, safeRound_twoDP _, safeRound_twoDP _⟩
